import Mathlib

/-!
# ZK-AgentMesh: verification of the spec against the code

Shallow embedding of the ZK-AgentMesh verification circuits
(src/circuits/QueryProcessor.circom, src/circuits/ComplianceVerifier.circom)
and the on-chain registry / query-processor contracts
(src/contracts/src/Counter.sol, src/contracts/src/ZKAgentGovernance.sol).

Circuit signals are modelled as natural numbers (the 0-1000 fixed-point
score scale never approaches the BN254 field modulus, and comparator
templates are only defined for inputs inside their declared bit width).
Constraint failure (an unsatisfiable witness) is modelled by Option.
Contract functions are modelled as explicit state transitions returning
Except; a revert yields an error value and, by construction, no state
change and no token transfer.
-/

namespace ZKAgentMesh

/-! ## Circomlib comparator primitives

circomlib LessThan(w) decomposes in0 + 2^w - in1 into w+1 bits and
returns the complement of the top bit.  GreaterEqThan(w) is
LessThan(w) applied to (in1, in0 + 1); LessEqThan(w) is LessThan(w)
applied to (in0, in1 + 1).  The templates assume both operands fit in
w bits. -/

/-- Bit w of the binary decomposition of x (Num2Bits output used by LessThan). -/
def num2BitsTop (w x : Nat) : Nat := x / 2 ^ w % 2

/-- circomlib LessThan(w): 1 - top bit of in0 + 2^w - in1. -/
def LessThan (w in0 in1 : Nat) : Nat := 1 - num2BitsTop w (in0 + 2 ^ w - in1)

/-- circomlib GreaterEqThan(w). -/
def GreaterEqThan (w in0 in1 : Nat) : Nat := LessThan w in1 (in0 + 1)

/-- circomlib LessEqThan(w). -/
def LessEqThan (w in0 in1 : Nat) : Nat := LessThan w in0 (in1 + 1)

/-- circomlib IsEqual: 1 iff the two inputs are equal (via IsZero of the difference). -/
def IsEqual (in0 in1 : Nat) : Nat := if in0 = in1 then 1 else 0

theorem LessThan_le_one (w a b : Nat) : LessThan w a b ≤ 1 := by
  unfold LessThan
  omega

theorem GreaterEqThan_eq (w a b : Nat) (ha : a < 2 ^ w) (hb : b < 2 ^ w) :
    GreaterEqThan w a b = if b ≤ a then 1 else 0 := by
  have hw : 0 < 2 ^ w := Nat.pos_pow_of_pos w (by norm_num)
  unfold GreaterEqThan LessThan num2BitsTop
  rcases le_or_lt b a with h | h
  · have h1 : b + 2 ^ w - (a + 1) < 2 ^ w := by omega
    rw [Nat.div_eq_of_lt h1]
    simp [h]
  · have h1 : (b + 2 ^ w - (a + 1)) / 2 ^ w = 1 := by
      apply Nat.div_eq_of_lt_le
      · omega
      · omega
    rw [h1]
    simp [Nat.not_le.mpr h]

theorem GreaterEqThan_eq_one_iff (w a b : Nat) (ha : a < 2 ^ w) (hb : b < 2 ^ w) :
    GreaterEqThan w a b = 1 ↔ b ≤ a := by
  rw [GreaterEqThan_eq w a b ha hb]
  split <;> simp_all

/-! ## Field-arithmetic helper templates -/

/-- The running partial-sum pattern (partialSum accumulation loop) shared by
AverageCalculator and HarmfulContentCounter. -/
def sumAcc (values : List Nat) : Nat := values.foldl (fun acc v => acc + v) 0

theorem sumAcc_eq_sum (values : List Nat) : sumAcc values = values.sum := by
  unfold sumAcc
  rw [List.sum_eq_foldl]

/-- AverageCalculator(n): sums the values, assigns the unconstrained hint
tempAverage from the integer division sum \ n, then enforces the constraint
tempAverage * n === sum.  A witness exists exactly when the constraint is
satisfiable, i.e. when n divides sum (and for n = 0, when sum = 0). -/
def AverageCalculator (values : List Nat) : Option Nat :=
  let sum := sumAcc values
  let n := values.length
  let tempAverage := sum / n
  if tempAverage * n = sum then some tempAverage else none

/-- The running-product AND-reduction pattern (products accumulation loop,
acc₀ = 1) shared by all verifiers. -/
def ProductReducer (flags : List Nat) : Nat := flags.foldl (fun acc f => acc * f) 1

theorem ProductReducer_eq_prod (flags : List Nat) : ProductReducer flags = flags.prod := by
  unfold ProductReducer
  rw [List.prod_eq_foldl]

theorem ProductReducer_nil : ProductReducer [] = 1 := rfl

theorem ProductReducer_eq_one_iff (flags : List Nat)
    (hb : ∀ f ∈ flags, f = 0 ∨ f = 1) :
    ProductReducer flags = 1 ↔ ∀ f ∈ flags, f = 1 := by
  rw [ProductReducer_eq_prod]
  induction flags with
  | nil => simp
  | cons f fs ih =>
    rw [List.prod_cons]
    have hf := hb f (List.mem_cons_self f fs)
    have hfs : ∀ g ∈ fs, g = 0 ∨ g = 1 := fun g hg => hb g (List.mem_cons_of_mem f hg)
    rcases hf with h0 | h1
    · subst h0
      simp [ih hfs]
    · subst h1
      simp [ih hfs]

theorem ProductReducer_eq_zero (flags : List Nat) (h : 0 ∈ flags) :
    ProductReducer flags = 0 := by
  rw [ProductReducer_eq_prod]
  exact List.prod_eq_zero h

/-- IndexSelector(n) running sum: products[i] = IsEqual(index, i) * values[i],
accumulated from running position i. -/
def selectorAcc (index : Nat) (values : List Nat) (i : Nat) : Nat :=
  match values with
  | [] => 0
  | v :: rest => IsEqual index i * v + selectorAcc index rest (i + 1)

/-- IndexSelector(n): selected_value = Σ_i IsEqual(index, i) * values[i]. -/
def IndexSelector (values : List Nat) (index : Nat) : Nat :=
  selectorAcc index values 0

theorem selectorAcc_eq (index : Nat) (values : List Nat) :
    ∀ i : Nat, selectorAcc index values i =
      if i ≤ index then values.getD (index - i) 0 else 0 := by
  induction values with
  | nil => intro i; simp [selectorAcc]
  | cons v rest ih =>
    intro i
    rw [selectorAcc, ih (i + 1)]
    unfold IsEqual
    rcases Nat.lt_trichotomy index i with h | h | h
    · rw [if_neg (by omega), if_neg (by omega), if_neg (by omega)]
      omega
    · subst h
      rw [if_pos rfl, if_neg (by omega), if_pos (by omega)]
      simp
    · rw [if_neg (by omega), if_pos (by omega), if_pos (by omega)]
      have hk : index - i = (index - (i + 1)) + 1 := by omega
      rw [hk]
      simp

/-! ## Poseidon commitments

The circuits use the circomlib Poseidon sponge only as an opaque,
order-sensitive, collision-resistant multi-input commitment.  It is
modelled as the free commitment: a digest that remembers exactly the
ordered input list, so two digests are equal iff their input lists are. -/

structure Digest where
  inputs : List Nat
deriving DecidableEq, Repr

/-- Poseidon(k) hash over its ordered input signals, modelled freely. -/
def Poseidon (inputs : List Nat) : Digest := ⟨inputs⟩

/-- Modelled from the spec: the per-verifier commitment
proof_hash = CommitHash(agent_id, verified_flag, key_levels..., external_commitment_hash). -/
def CommitHashSpec (agent_id verified_flag : Nat) (key_levels : List Nat)
    (external_commitment_hash : Nat) : Digest :=
  Poseidon (agent_id :: verified_flag :: (key_levels ++ [external_commitment_hash]))

/-! ## TrainingQualityVerifier (src/circuits/QueryProcessor.circom) -/

structure TrainingQualityResult where
  quality_verified : Nat
  average_quality : Nat
  training_proof_hash : Digest
  model_integrity_proof : Digest
deriving DecidableEq, Repr

/-- TrainingQualityVerifier(n_samples, n_metrics): per-sample GreaterEqThan(10)
checks against min_quality_threshold, AverageCalculator over the scores, a
GreaterEqThan(10) check of the average, quality_products running product of the
sample checks, and quality_verified = quality_check.out * final_quality_product.
training_proof_hash = Poseidon(agent_id, training_seed, average_quality,
creator_address); model_integrity_proof = Poseidon(model_weights_hash,
training_seed, agent_id).  None models an unsatisfiable AverageCalculator
constraint (no witness). -/
def TrainingQualityVerifier (quality_scores : List Nat)
    (training_seed model_weights_hash agent_id min_quality_threshold
      training_commitment_hash creator_address : Nat) :
    Option TrainingQualityResult :=
  (AverageCalculator quality_scores).map fun average_quality =>
    let sample_checks := quality_scores.map fun s => GreaterEqThan 10 s min_quality_threshold
    let final_quality_product := ProductReducer sample_checks
    let quality_check := GreaterEqThan 10 average_quality min_quality_threshold
    { quality_verified := quality_check * final_quality_product
      average_quality := average_quality
      training_proof_hash :=
        Poseidon [agent_id, training_seed, average_quality, creator_address]
      model_integrity_proof := Poseidon [model_weights_hash, training_seed, agent_id] }

/-! ## ComplianceVerifier (src/circuits/ComplianceVerifier.circom) -/

/-- DataTypeEncoder accumulation: permissions[0] + Σ_{i≥1} permissions[i] * 2^i,
with the running bit position. -/
def dataTypeAcc (permissions : List Nat) (i : Nat) : Nat :=
  match permissions with
  | [] => 0
  | p :: rest => p * 2 ^ i + dataTypeAcc rest (i + 1)

/-- DataTypeEncoder(n): bitmask of data-category permission flags. -/
def DataTypeEncoder (permissions : List Nat) : Nat := dataTypeAcc permissions 0

structure ComplianceResult where
  compliance_verified : Nat
  privacy_level : Nat
  data_handling_level : Nat
  compliance_proof_hash : Digest
  supported_data_types : Nat
deriving DecidableEq, Repr

/-- ComplianceVerifier(n_compliance_tests, n_data_categories): GreaterEqThan(10)
checks of privacy scores against min_privacy_score, data-handling scores against
min_data_handling_score and encryption scores against the fixed constant 800;
averages of the privacy and data-handling scores; running products of the three
check families; compliance_verified = (privacy_product * data_product) *
encryption_product; supported_data_types from DataTypeEncoder;
compliance_proof_hash = Poseidon(agent_id, compliance_verified, privacy_level,
data_handling_level, supported_data_types, compliance_commitment_hash). -/
def ComplianceVerifier (data_handling_scores privacy_protection_scores
      data_category_permissions encryption_standards : List Nat)
    (min_privacy_score min_data_handling_score agent_id
      compliance_commitment_hash : Nat) :
    Option ComplianceResult :=
  match AverageCalculator privacy_protection_scores,
      AverageCalculator data_handling_scores with
  | some privacy_level, some data_handling_level =>
    let privacy_results :=
      privacy_protection_scores.map fun s => GreaterEqThan 10 s min_privacy_score
    let data_handling_results :=
      data_handling_scores.map fun s => GreaterEqThan 10 s min_data_handling_score
    let encryption_results :=
      encryption_standards.map fun s => GreaterEqThan 10 s 800
    let privacy_product := ProductReducer privacy_results
    let data_product := ProductReducer data_handling_results
    let encryption_product := ProductReducer encryption_results
    let compliance_verified := privacy_product * data_product * encryption_product
    let supported_data_types := DataTypeEncoder data_category_permissions
    some { compliance_verified := compliance_verified
           privacy_level := privacy_level
           data_handling_level := data_handling_level
           compliance_proof_hash :=
             Poseidon [agent_id, compliance_verified, privacy_level,
               data_handling_level, supported_data_types,
               compliance_commitment_hash]
           supported_data_types := supported_data_types }
  | _, _ => none

/-! ## On-chain contracts

src/contracts/src/Counter.sol (ZKAgentVerificationCore) and
src/contracts/src/ZKAgentGovernance.sol (ZKQueryProcessor).  Solidity
mappings are total functions with the all-zero default record; msg.sender,
msg.value and block.timestamp are explicit arguments; a revert is an
Except.error and leaves every state and balance untouched. -/

abbrev Address := Nat
abbrev Bytes32 := Nat

/-- ZKVerificationLib.Proof: Groth16 proof points a, b, c. -/
structure Proof where
  a : Nat × Nat
  b : (Nat × Nat) × (Nat × Nat)
  c : Nat × Nat
deriving DecidableEq, Repr

/-- ZKVerificationLib.verifyProof: the simplified check
proof.a[0] != 0 && proof.b[0][0] != 0 && proof.c[0] != 0
(src/unnamed/part_004; the verifying key is unused there). -/
def verifyProof (proof : Proof) : Bool :=
  proof.a.1 != 0 && proof.b.1.1 != 0 && proof.c.1 != 0

/-- ZKAgentVerificationCore.Agent (the verificationProofs mapping included). -/
structure Agent where
  creator : Address
  metadataURI : String
  registrationTime : Nat
  isActive : Bool
  totalVerifications : Nat
  lastVerificationTime : Nat
  verificationProofs : Bytes32 → Bool

/-- Mapping default value for Agent. -/
def emptyAgent : Agent where
  creator := 0
  metadataURI := ""
  registrationTime := 0
  isActive := false
  totalVerifications := 0
  lastVerificationTime := 0
  verificationProofs := fun _ => false

/-- ZKAgentVerificationCore.VerificationResult. -/
structure VerificationResult where
  qualityVerified : Bool
  ethicsVerified : Bool
  complianceVerified : Bool
  capabilityVerified : Bool
  reputationScore : Nat
  timestamp : Nat
  masterProofHash : Nat
deriving DecidableEq, Repr

/-- Mapping default value for VerificationResult. -/
def emptyResult : VerificationResult where
  qualityVerified := false
  ethicsVerified := false
  complianceVerified := false
  capabilityVerified := false
  reputationScore := 0
  timestamp := 0
  masterProofHash := 0

/-- ZKAgentVerificationCore contract storage. -/
structure VerificationCoreState where
  agents : Bytes32 → Agent
  verificationResults : Bytes32 → VerificationResult
  registeredAgents : List Bytes32
  totalRegisteredAgents : Nat
  verificationFee : Nat
  registrationFee : Nat

/-- ZKAgentVerificationCore.registerAgent: requires msg.value >= registrationFee
and agents[agentId].creator == address(0); writes the creator, metadata URI,
registration time and active flag, appends to registeredAgents and bumps the
counter. -/
def registerAgent (s : VerificationCoreState) (sender : Address) (msgValue : Nat)
    (agentId : Bytes32) (metadataURI : String) (blockTimestamp : Nat) :
    Except String VerificationCoreState :=
  if msgValue < s.registrationFee then .error "Insufficient registration fee"
  else if (s.agents agentId).creator ≠ 0 then .error "Agent already registered"
  else
    let agent := { s.agents agentId with
      creator := sender
      metadataURI := metadataURI
      registrationTime := blockTimestamp
      isActive := true }
    .ok { s with
      agents := fun id => if id = agentId then agent else s.agents id
      registeredAgents := s.registeredAgents ++ [agentId]
      totalRegisteredAgents := s.totalRegisteredAgents + 1 }

/-- ZKAgentVerificationCore.isAgentFullyVerified: conjunction of the four
per-category booleans of the agent's VerificationResult. -/
def isAgentFullyVerified (s : VerificationCoreState) (agentId : Bytes32) : Bool :=
  let result := s.verificationResults agentId
  result.qualityVerified && result.ethicsVerified &&
    result.complianceVerified && result.capabilityVerified

/-- ZKQueryProcessor.QueryRequest. -/
structure QueryRequest where
  agentId : Bytes32
  requester : Address
  queryType : Nat
  paymentAmount : Nat
  timestamp : Nat
  processed : Bool
  responseCommitment : Bytes32
deriving DecidableEq, Repr

/-- Mapping default value for QueryRequest. -/
def emptyQuery : QueryRequest where
  agentId := 0
  requester := 0
  queryType := 0
  paymentAmount := 0
  timestamp := 0
  processed := false
  responseCommitment := 0

/-- ZKQueryProcessor.AgentCapabilities (supportedQueryTypes is a mapping). -/
structure AgentCapabilities where
  supportedQueryTypes : Nat → Bool
  basePrice : Nat
  complexityMultiplier : Nat
  acceptingQueries : Bool

/-- Mapping default value for AgentCapabilities. -/
def emptyCapabilities : AgentCapabilities where
  supportedQueryTypes := fun _ => false
  basePrice := 0
  complexityMultiplier := 0
  acceptingQueries := false

/-- ZKQueryProcessor contract storage (FEE_DENOMINATOR is the constant 10000). -/
structure QueryProcessorState where
  queries : Bytes32 → QueryRequest
  agentCapabilities : Bytes32 → AgentCapabilities
  platformFeePercent : Nat

/-- ZKQueryProcessor.setAgentCapabilities: requires
verificationContract.isAgentFullyVerified(agentId); clears
supportedQueryTypes[i] for i = 0..99, then sets each listed type, and stores
the new price parameters with acceptingQueries = true.  (The caller is not
checked against the agent's creator.) -/
def setAgentCapabilities (s : QueryProcessorState) (vs : VerificationCoreState)
    (agentId : Bytes32) (supportedQueryTypes : List Nat)
    (basePrice complexityMultiplier : Nat) :
    Except String QueryProcessorState :=
  if ¬ isAgentFullyVerified vs agentId then .error "Agent not verified"
  else
    let caps := s.agentCapabilities agentId
    let updated : Nat → Bool := fun t =>
      if t ∈ supportedQueryTypes then true
      else if t < 100 then false
      else caps.supportedQueryTypes t
    .ok { s with
      agentCapabilities := fun id =>
        if id = agentId then
          { supportedQueryTypes := updated
            basePrice := basePrice
            complexityMultiplier := complexityMultiplier
            acceptingQueries := true }
        else s.agentCapabilities id }

/-- ZKQueryProcessor.submitQueryProcessingProof: requires the query not yet
processed and existing (requester != address(0)) and the proof valid; then
stores publicInputs[1] as the response commitment, marks the query processed,
computes platformFee = paymentAmount * platformFeePercent / FEE_DENOMINATOR,
and transfers paymentAmount - platformFee to the agent's creator (read from
the verification contract).  msg.sender is never read: any caller may settle.
The result carries the updated state plus the token transfer (recipient,
amount) performed on success. -/
def submitQueryProcessingProof (s : QueryProcessorState)
    (vs : VerificationCoreState) (caller : Address) (queryId : Bytes32)
    (proof : Proof) (publicInputs : List Nat) :
    Except String (QueryProcessorState × Address × Nat) :=
  let query := s.queries queryId
  if query.processed then .error "Query already processed"
  else if query.requester = 0 then .error "Query does not exist"
  else if ¬ verifyProof proof then .error "Invalid processing proof"
  else
    match publicInputs.get? 1 with
    | none => .error "array out-of-bounds access"
    | some rc =>
      let query2 := { query with processed := true, responseCommitment := rc }
      let platformFee := query.paymentAmount * s.platformFeePercent / 10000
      let agentPayment := query.paymentAmount - platformFee
      let agentCreator := (vs.agents query.agentId).creator
      .ok ({ s with
          queries := fun id => if id = queryId then query2 else s.queries id },
        agentCreator, agentPayment)

/-! ## Helper lemmas for the circuit claims -/

theorem GreaterEqThan_zero_or_one (w a b : Nat) :
    GreaterEqThan w a b = 0 ∨ GreaterEqThan w a b = 1 := by
  have h := LessThan_le_one w b (a + 1)
  unfold GreaterEqThan
  omega

theorem ProductReducer_zero_or_one (flags : List Nat)
    (hb : ∀ f ∈ flags, f = 0 ∨ f = 1) :
    ProductReducer flags = 0 ∨ ProductReducer flags = 1 := by
  rw [ProductReducer_eq_prod]
  induction flags with
  | nil => simp
  | cons f fs ih =>
    rw [List.prod_cons]
    have hf := hb f (List.mem_cons_self f fs)
    have ihfs := ih fun g hg => hb g (List.mem_cons_of_mem f hg)
    rcases hf with h | h <;> rcases ihfs with h2 | h2 <;> simp [h, h2]

theorem AverageCalculator_sound (values : List Nat) (avg : Nat)
    (h : AverageCalculator values = some avg) :
    avg * values.length = values.sum := by
  rw [AverageCalculator] at h
  split at h
  · rename_i hcond
    injection h with h2
    rw [h2, sumAcc_eq_sum] at hcond
    exact hcond
  · cases h

theorem AverageCalculator_lt_bound (values : List Nat) (avg bound : Nat)
    (hb : ∀ v ∈ values, v < bound) (hbpos : 0 < bound)
    (h : AverageCalculator values = some avg) : avg < bound := by
  have hsum := AverageCalculator_sound values avg h
  cases values with
  | nil =>
    rw [AverageCalculator] at h
    simp [sumAcc] at h
    omega
  | cons v rest =>
    have hle : (v :: rest).sum ≤ (v :: rest).length * (bound - 1) := by
      have := List.sum_le_card_nsmul (v :: rest) (bound - 1)
        (fun x hx => by have := hb x hx; omega)
      simpa [smul_eq_mul] using this
    have hlen : 0 < (v :: rest).length := by simp
    have h3 : avg * (v :: rest).length ≤ (bound - 1) * (v :: rest).length := by
      rw [hsum]
      calc (v :: rest).sum ≤ (v :: rest).length * (bound - 1) := hle
        _ = (bound - 1) * (v :: rest).length := Nat.mul_comm _ _
    have h4 := Nat.le_of_mul_le_mul_right h3 hlen
    omega

/-! ## Claim C1 -/

/-- C1: the Training-Quality verifier outputs quality_verified = 1 iff every
individual sample score meets min_quality_threshold and the average quality
meets it too; the output is always boolean.  Scores and threshold are within
the GreaterEqThan(10) comparator's 10-bit domain, as the 0-1000 score scale
requires. -/
theorem trainingQuality_per_sample_and_average_gating
    (quality_scores : List Nat)
    (seed mwh aid thr tch ca : Nat) (res : TrainingQualityResult)
    (hs : ∀ s ∈ quality_scores, s < 2 ^ 10) (hthr : thr < 2 ^ 10)
    (hrun : TrainingQualityVerifier quality_scores seed mwh aid thr tch ca =
      some res) :
    (res.quality_verified = 1 ↔
      ((∀ s ∈ quality_scores, thr ≤ s) ∧ thr ≤ res.average_quality)) ∧
    (res.quality_verified = 0 ∨ res.quality_verified = 1) := by
  rw [TrainingQualityVerifier, Option.map_eq_some'] at hrun
  obtain ⟨avg, havg, hres⟩ := hrun
  have havg_lt : avg < 2 ^ 10 :=
    AverageCalculator_lt_bound quality_scores avg (2 ^ 10) hs (by norm_num) havg
  subst hres
  dsimp only
  set checks := quality_scores.map fun s => GreaterEqThan 10 s thr with hchecks
  have hcb : ∀ f ∈ checks, f = 0 ∨ f = 1 := by
    intro f hf
    rw [hchecks, List.mem_map] at hf
    obtain ⟨s, _, hfs⟩ := hf
    rw [← hfs]
    exact GreaterEqThan_zero_or_one 10 s thr
  have hA := GreaterEqThan_zero_or_one 10 avg thr
  have hB := ProductReducer_zero_or_one checks hcb
  have hA_iff : GreaterEqThan 10 avg thr = 1 ↔ thr ≤ avg :=
    GreaterEqThan_eq_one_iff 10 avg thr havg_lt hthr
  have hB_iff : ProductReducer checks = 1 ↔ ∀ s ∈ quality_scores, thr ≤ s := by
    rw [ProductReducer_eq_one_iff checks hcb]
    constructor
    · intro h s hsmem
      have := h (GreaterEqThan 10 s thr)
        (by rw [hchecks, List.mem_map]; exact ⟨s, hsmem, rfl⟩)
      exact (GreaterEqThan_eq_one_iff 10 s thr (hs s hsmem) hthr).mp this
    · intro h f hf
      rw [hchecks, List.mem_map] at hf
      obtain ⟨s, hsmem, hfs⟩ := hf
      rw [← hfs]
      exact (GreaterEqThan_eq_one_iff 10 s thr (hs s hsmem) hthr).mpr (h s hsmem)
  constructor
  · constructor
    · intro h
      rcases hA with hA0 | hA1
      · rw [hA0, Nat.zero_mul] at h
        exact absurd h (by omega)
      · rcases hB with hB0 | hB1
        · rw [hA1, hB0] at h
          exact absurd h (by omega)
        · exact ⟨hB_iff.mp hB1, hA_iff.mp hA1⟩
    · rintro ⟨hall, havg2⟩
      rw [hA_iff.mpr havg2, hB_iff.mpr hall]
  · rcases hA with h1 | h1 <;> rcases hB with h2 | h2 <;> rw [h1, h2] <;> omega

/-- Concrete Training-Quality run: scores [900, 950, 700], threshold 800,
agent_id 1, training_seed 2, model_weights_hash 5, commitment 999, creator 3. -/
def tqExampleRes : TrainingQualityResult where
  quality_verified := 0
  average_quality := 850
  training_proof_hash := Poseidon [1, 2, 850, 3]
  model_integrity_proof := Poseidon [5, 2, 1]

/-- C1 witness: on samples [900, 950, 700] with threshold 800 the verifier
emits quality_verified = 0 although the average 850 meets the threshold. -/
theorem trainingQuality_per_sample_and_average_gating_witness :
    tqExampleRes.quality_verified = 0 ∧ 800 ≤ tqExampleRes.average_quality := by
  have h := trainingQuality_per_sample_and_average_gating
    [900, 950, 700] 2 5 1 800 999 3 tqExampleRes
    (by decide) (by decide) (by decide)
  refine ⟨?_, by decide⟩
  rcases h.2 with h0 | h1
  · exact h0
  · exfalso
    have := (h.1.mp h1).1 700 (by decide)
    omega

/-! ## Claim C2 -/

/-- C2: any value accepted by the AverageCalculator constraint system for a
non-empty input vector satisfies average * N = sum(values). -/
theorem averageCalculator_division_invariant (values : List Nat) (avg : Nat)
    (_hne : values ≠ []) (h : AverageCalculator values = some avg) :
    avg * values.length = values.sum :=
  AverageCalculator_sound values avg h

/-- C2 witness: [900, 950, 700] averages to 850 with 850 * 3 = 2550. -/
theorem averageCalculator_division_invariant_witness :
    (850 : Nat) * ([900, 950, 700] : List Nat).length =
      ([900, 950, 700] : List Nat).sum :=
  averageCalculator_division_invariant [900, 950, 700] 850 (by decide) (by decide)

/-! ## Claim C7 -/

/-- C7: IndexSelector returns values[index] for an in-range index (getD with
default 0 agrees with the indexed element there) and the additive identity 0
for any out-of-range index. -/
theorem indexSelector_in_range_and_zero_default (values : List Nat) (index : Nat) :
    IndexSelector values index = values.getD index 0 ∧
    (values.length ≤ index → IndexSelector values index = 0) := by
  have hmain : IndexSelector values index = values.getD index 0 := by
    rw [IndexSelector, selectorAcc_eq]
    simp
  refine ⟨hmain, fun hout => ?_⟩
  rw [hmain]
  exact List.getD_eq_default values 0 hout

/-- C7 witness: IndexSelector [5, 7] selects index 1 and yields 0 at the
out-of-range index 9. -/
theorem indexSelector_in_range_and_zero_default_witness :
    IndexSelector [5, 7] 1 = 7 ∧ IndexSelector [5, 7] 9 = 0 := by
  constructor
  · rw [(indexSelector_in_range_and_zero_default [5, 7] 1).1]
    decide
  · exact (indexSelector_in_range_and_zero_default [5, 7] 9).2 (by decide)

/-! ## Claim C8 -/

/-- C8: the running-product AND-reduction over 0/1 flags yields 1 iff every
flag is 1, yields 0 whenever some flag is 0, and yields 1 (vacuous true) on
the empty array. -/
theorem productReducer_truth_table (flags : List Nat)
    (hb : ∀ f ∈ flags, f = 0 ∨ f = 1) :
    (ProductReducer flags = 1 ↔ ∀ f ∈ flags, f = 1) ∧
    ((∃ f ∈ flags, f = 0) → ProductReducer flags = 0) ∧
    ProductReducer ([] : List Nat) = 1 := by
  refine ⟨ProductReducer_eq_one_iff flags hb, ?_, ProductReducer_nil⟩
  rintro ⟨f, hf, h0⟩
  subst h0
  exact ProductReducer_eq_zero flags hf

/-- C8 witness: the truth table at the concrete flag vector [1, 0]. -/
theorem productReducer_truth_table_witness :
    (ProductReducer [1, 0] = 1 ↔ ∀ f ∈ ([1, 0] : List Nat), f = 1) ∧
    ((∃ f ∈ ([1, 0] : List Nat), f = 0) → ProductReducer [1, 0] = 0) ∧
    ProductReducer ([] : List Nat) = 1 :=
  productReducer_truth_table [1, 0] (by decide)

/-! ## Claim C6 -/

/-- C6 counterexample: in the concrete Training-Quality run (agent_id 1,
training_seed 2, creator 3, external training_commitment_hash 999, scores
[900, 950, 700], threshold 800) the emitted training_proof_hash hashes
[agent_id, training_seed, average_quality, creator_address]: neither the
externally supplied commitment hash 999 nor the verified flag (0 here) is
among its inputs, so the claimed CommitHash shape fails for this verifier. -/
theorem trainingProofHash_omits_commitment_counterexample :
    TrainingQualityVerifier [900, 950, 700] 2 5 1 800 999 3 = some tqExampleRes ∧
    999 ∉ tqExampleRes.training_proof_hash.inputs ∧
    tqExampleRes.quality_verified ∉ tqExampleRes.training_proof_hash.inputs := by
  refine ⟨by decide, by decide, by decide⟩

/-- C6 amended: the Compliance verifier's proof hash does follow the
CommitHash(agent_id, verified_flag, key_levels..., external_commitment_hash)
pattern, but the Training-Quality verifier's training_proof_hash instead
hashes (agent_id, training_seed, average_quality, creator_address),
omitting both the verified flag and the external commitment hash. -/
theorem proofHash_binding_shapes :
    (∀ dh pp dcp es mps mdhs aid cch res,
       ComplianceVerifier dh pp dcp es mps mdhs aid cch = some res →
       res.compliance_proof_hash =
         CommitHashSpec aid res.compliance_verified
           [res.privacy_level, res.data_handling_level, res.supported_data_types]
           cch) ∧
    (∀ qs seed mwh aid thr tch ca res,
       TrainingQualityVerifier qs seed mwh aid thr tch ca = some res →
       res.training_proof_hash =
         Poseidon [aid, seed, res.average_quality, ca]) := by
  constructor
  · intro dh pp dcp es mps mdhs aid cch res h
    rw [ComplianceVerifier] at h
    cases hp : AverageCalculator pp with
    | none => rw [hp] at h; cases h
    | some pl =>
      cases hd : AverageCalculator dh with
      | none => rw [hp, hd] at h; cases h
      | some dl =>
        rw [hp, hd] at h
        injection h with h2
        rw [← h2]
        rfl
  · intro qs seed mwh aid thr tch ca res h
    rw [TrainingQualityVerifier, Option.map_eq_some'] at h
    obtain ⟨avg, havg, hres⟩ := h
    rw [← hres]

/-- Concrete Compliance run: data-handling [900], privacy [900], permissions
[1], encryption [850], thresholds 800/800, agent_id 1, commitment 999. -/
def cvExampleRes : ComplianceResult where
  compliance_verified := 1
  privacy_level := 900
  data_handling_level := 900
  compliance_proof_hash := Poseidon [1, 1, 900, 900, 1, 999]
  supported_data_types := 1

/-- C6 amended witness: both hash shapes at concrete runs. -/
theorem proofHash_binding_shapes_witness :
    cvExampleRes.compliance_proof_hash = CommitHashSpec 1 1 [900, 900, 1] 999 ∧
    tqExampleRes.training_proof_hash = Poseidon [1, 2, 850, 3] := by
  constructor
  · exact proofHash_binding_shapes.1 [900] [900] [1] [850] 800 800 1 999
      cvExampleRes (by decide)
  · exact proofHash_binding_shapes.2 [900, 950, 700] 2 5 1 800 999 3
      tqExampleRes (by decide)

/-! ## Concrete contract states for the witnesses and counterexamples -/

/-- Registry with empty storage and small fees. -/
def coreS0 : VerificationCoreState where
  agents := fun _ => emptyAgent
  verificationResults := fun _ => emptyResult
  registeredAgents := []
  totalRegisteredAgents := 0
  verificationFee := 10
  registrationFee := 5

/-- coreS0 after a successful registerAgent by sender 5 for agent 7. -/
def coreS1 : VerificationCoreState :=
  { coreS0 with
    agents := fun id =>
      if id = 7 then
        { coreS0.agents 7 with
          creator := 5
          metadataURI := "m"
          registrationTime := 100
          isActive := true }
      else coreS0.agents id
    registeredAgents := coreS0.registeredAgents ++ [7]
    totalRegisteredAgents := coreS0.totalRegisteredAgents + 1 }

/-- Registry where agent 1 (creator 3) is fully verified. -/
def coreVerified : VerificationCoreState where
  agents := fun id =>
    if id = 1 then { emptyAgent with creator := 3, isActive := true }
    else emptyAgent
  verificationResults := fun id =>
    if id = 1 then
      { emptyResult with
        qualityVerified := true
        ethicsVerified := true
        complianceVerified := true
        capabilityVerified := true }
    else emptyResult
  registeredAgents := [1]
  totalRegisteredAgents := 1
  verificationFee := 10
  registrationFee := 5

/-- Pending query 42 against agent 1: requester 8, payment 100. -/
def qpExampleQuery : QueryRequest where
  agentId := 1
  requester := 8
  queryType := 0
  paymentAmount := 100
  timestamp := 50
  processed := false
  responseCommitment := 0

/-- Query processor holding the pending query 42, platform fee 250 bps. -/
def qpS0 : QueryProcessorState where
  queries := fun id => if id = 42 then qpExampleQuery else emptyQuery
  agentCapabilities := fun _ => emptyCapabilities
  platformFeePercent := 250

/-- qpS0 after query 42 is settled (response commitment 22). -/
def qpS1 : QueryProcessorState :=
  { qpS0 with
    queries := fun id =>
      if id = 42 then
        { qpS0.queries 42 with processed := true, responseCommitment := 22 }
      else qpS0.queries id }

/-- A proof accepted by the simplified verifyProof check. -/
def goodProof : Proof where
  a := (1, 1)
  b := ((1, 1), (1, 1))
  c := (1, 1)

/-- Query processor with no capabilities set yet. -/
def capsS0 : QueryProcessorState where
  queries := fun _ => emptyQuery
  agentCapabilities := fun _ => emptyCapabilities
  platformFeePercent := 250

/-- capsS0 after setAgentCapabilities(1, [100], 10, 1000). -/
def capsAfterFirst : QueryProcessorState :=
  { capsS0 with
    agentCapabilities := fun id =>
      if id = 1 then
        { supportedQueryTypes := fun t =>
            if t ∈ [100] then true
            else if t < 100 then false
            else (capsS0.agentCapabilities 1).supportedQueryTypes t
          basePrice := 10
          complexityMultiplier := 1000
          acceptingQueries := true }
      else capsS0.agentCapabilities id }

/-- capsAfterFirst after setAgentCapabilities(1, [], 10, 1000). -/
def capsAfterSecond : QueryProcessorState :=
  { capsAfterFirst with
    agentCapabilities := fun id =>
      if id = 1 then
        { supportedQueryTypes := fun t =>
            if t ∈ ([] : List Nat) then true
            else if t < 100 then false
            else (capsAfterFirst.agentCapabilities 1).supportedQueryTypes t
          basePrice := 10
          complexityMultiplier := 1000
          acceptingQueries := true }
      else capsAfterFirst.agentCapabilities id }

/-! ## Success-case characterization of submitQueryProcessingProof -/

theorem submitQueryProcessingProof_ok_spec (s : QueryProcessorState)
    (vs : VerificationCoreState) (caller : Address) (queryId : Bytes32)
    (pf : Proof) (pub : List Nat) (s2 : QueryProcessorState)
    (recipient : Address) (amount : Nat)
    (h : submitQueryProcessingProof s vs caller queryId pf pub =
      .ok (s2, recipient, amount)) :
    recipient = (vs.agents (s.queries queryId).agentId).creator ∧
    amount = (s.queries queryId).paymentAmount -
      (s.queries queryId).paymentAmount * s.platformFeePercent / 10000 ∧
    (s2.queries queryId).processed = true ∧
    (s.queries queryId).processed = false ∧
    (∀ q, q ≠ queryId → s2.queries q = s.queries q) := by
  simp only [submitQueryProcessingProof] at h
  split_ifs at h with h1 h2 h3
  cases hg : pub.get? 1 with
  | none =>
    rw [hg] at h
    cases h
  | some rc =>
    rw [hg] at h
    dsimp only at h
    injection h with h4
    simp only [Prod.mk.injEq] at h4
    obtain ⟨hs2, hrec, hamt⟩ := h4
    refine ⟨hrec.symm, hamt.symm, ?_, ?_, ?_⟩
    · rw [← hs2]
      simp
    · simpa using h1
    · intro q hq
      rw [← hs2]
      simp [hq]

theorem submitQueryProcessingProof_processed_rejected
    (s : QueryProcessorState) (vs : VerificationCoreState) (caller : Address)
    (queryId : Bytes32) (pf : Proof) (pub : List Nat)
    (hp : (s.queries queryId).processed = true) :
    submitQueryProcessingProof s vs caller queryId pf pub =
      .error "Query already processed" := by
  rw [submitQueryProcessingProof]
  dsimp only
  rw [if_pos hp]

/-! ## Claim C3 -/

/-- C3: once submitQueryProcessingProof succeeds for a query, the query is
marked processed; any submitQueryProcessingProof call on a processed query
reverts at the first require (no state change, no transfer — a revert returns
no new state and no transfer value), and every successful settlement of any
other query keeps the flag set, so the escrowed payment is released at most
once. -/
theorem queryProcessing_settles_at_most_once
    (s : QueryProcessorState) (vs : VerificationCoreState) (caller : Address)
    (queryId : Bytes32) (pf : Proof) (pub : List Nat)
    (s2 : QueryProcessorState) (recipient : Address) (amount : Nat)
    (h : submitQueryProcessingProof s vs caller queryId pf pub =
      .ok (s2, recipient, amount)) :
    (s2.queries queryId).processed = true ∧
    (∀ (s3 : QueryProcessorState) vs2 caller2 pf2 pub2,
       (s3.queries queryId).processed = true →
       submitQueryProcessingProof s3 vs2 caller2 queryId pf2 pub2 =
         .error "Query already processed") ∧
    (∀ (s3 : QueryProcessorState) vs2 caller2 qid2 pf2 pub2 s4 r2 a2,
       submitQueryProcessingProof s3 vs2 caller2 qid2 pf2 pub2 =
         .ok (s4, r2, a2) →
       (s3.queries queryId).processed = true →
       (s4.queries queryId).processed = true) := by
  have hspec := submitQueryProcessingProof_ok_spec s vs caller queryId pf pub
    s2 recipient amount h
  refine ⟨hspec.2.2.1, ?_, ?_⟩
  · intro s3 vs2 caller2 pf2 pub2 hp
    exact submitQueryProcessingProof_processed_rejected s3 vs2 caller2 queryId
      pf2 pub2 hp
  · intro s3 vs2 caller2 qid2 pf2 pub2 s4 r2 a2 hok hp
    have hspec2 := submitQueryProcessingProof_ok_spec s3 vs2 caller2 qid2 pf2
      pub2 s4 r2 a2 hok
    by_cases hq : queryId = qid2
    · subst hq
      exact hspec2.2.2.1
    · rw [hspec2.2.2.2.2 queryId hq]
      exact hp

/-- C3 witness: settling query 42 marks it processed and a second settlement
attempt is rejected. -/
theorem queryProcessing_settles_at_most_once_witness :
    (qpS1.queries 42).processed = true ∧
    submitQueryProcessingProof qpS1 coreVerified 9 42 goodProof [11, 22] =
      .error "Query already processed" := by
  have h := queryProcessing_settles_at_most_once qpS0 coreVerified 9 42
    goodProof [11, 22] qpS1 3 98 (by rfl)
  exact ⟨h.1, h.2.1 qpS1 coreVerified 9 goodProof [11, 22] h.1⟩

/-! ## Claim C4 -/

/-- C4: registerAgent with msg.value below the registration fee reverts (no
Agent Record created, registry unchanged — a revert returns no new state),
and after a successful registration the record holds the caller as creator
and any second registerAgent for the same id reverts. -/
theorem registerAgent_fee_and_duplicate_rejected :
    (∀ (s : VerificationCoreState) sender msgValue agentId uri t,
       msgValue < s.registrationFee →
       registerAgent s sender msgValue agentId uri t =
         .error "Insufficient registration fee") ∧
    (∀ (s s2 : VerificationCoreState) sender msgValue agentId uri t
        sender2 msgValue2 uri2 t2,
       sender ≠ 0 →
       registerAgent s sender msgValue agentId uri t = .ok s2 →
       (s2.agents agentId).creator = sender ∧
       (registerAgent s2 sender2 msgValue2 agentId uri2 t2 =
          .error "Insufficient registration fee" ∨
        registerAgent s2 sender2 msgValue2 agentId uri2 t2 =
          .error "Agent already registered")) := by
  constructor
  · intro s sender msgValue agentId uri t hfee
    rw [registerAgent, if_pos hfee]
  · intro s s2 sender msgValue agentId uri t sender2 msgValue2 uri2 t2
      hsender hok
    simp only [registerAgent] at hok
    split_ifs at hok with hf hd
    injection hok with hs2
    have hcr : (s2.agents agentId).creator = sender := by
      rw [← hs2]
      simp
    refine ⟨hcr, ?_⟩
    by_cases hv : msgValue2 < s2.registrationFee
    · left
      rw [registerAgent, if_pos hv]
    · right
      have hne : (s2.agents agentId).creator ≠ 0 := by
        rw [hcr]
        exact hsender
      rw [registerAgent, if_neg hv, if_pos hne]

/-- C4 witness: on the empty registry, registering agent 7 with value 0 is
rejected; after a successful registration by sender 5, re-registering id 7 is
rejected. -/
theorem registerAgent_fee_and_duplicate_rejected_witness :
    registerAgent coreS0 5 0 7 "m" 100 =
      .error "Insufficient registration fee" ∧
    ((coreS1.agents 7).creator = 5 ∧
     (registerAgent coreS1 6 9 7 "n" 200 =
        .error "Insufficient registration fee" ∨
      registerAgent coreS1 6 9 7 "n" 200 =
        .error "Agent already registered")) := by
  refine ⟨?_, ?_⟩
  · exact registerAgent_fee_and_duplicate_rejected.1 coreS0 5 0 7 "m" 100
      (by decide)
  · exact registerAgent_fee_and_duplicate_rejected.2 coreS0 coreS1 5 5 7 "m"
      100 6 9 "n" 200 (by decide) (by rfl)

/-! ## Claim C5 -/

/-- C5 counterexample: settling the pending query with payment 100 at a
250-bps platform fee releases 98 to the agent creator (address 3) and
retains 2: uint256 division truncates, so neither 97.5 is released nor 2.5
retained as the claim's concrete instance demands. -/
theorem platformFee_truncation_counterexample :
    submitQueryProcessingProof qpS0 coreVerified 9 42 goodProof [11, 22] =
      .ok (qpS1, 3, 98) ∧
    (98 : ℚ) ≠ 195 / 2 ∧ (100 : ℚ) - 98 ≠ 5 / 2 := by
  refine ⟨by rfl, by norm_num, by norm_num⟩

/-- C5 amended: on success the platform fee is the floor division
paymentAmount * platformFeePercent / 10000 and the difference goes to the
agent's creator; for payment 100 at 250 bps this is fee 2 and release 98. -/
theorem platformFee_floor_formula
    (s : QueryProcessorState) (vs : VerificationCoreState) (caller : Address)
    (queryId : Bytes32) (pf : Proof) (pub : List Nat)
    (s2 : QueryProcessorState) (recipient : Address) (amount : Nat)
    (h : submitQueryProcessingProof s vs caller queryId pf pub =
      .ok (s2, recipient, amount)) :
    amount = (s.queries queryId).paymentAmount -
      (s.queries queryId).paymentAmount * s.platformFeePercent / 10000 ∧
    recipient = (vs.agents (s.queries queryId).agentId).creator := by
  have hs := submitQueryProcessingProof_ok_spec s vs caller queryId pf pub
    s2 recipient amount h
  exact ⟨hs.2.1, hs.1⟩

/-- C5 amended witness: payment 100 at 250 bps yields release
98 = 100 - 100 * 250 / 10000 to creator 3. -/
theorem platformFee_floor_formula_witness :
    (98 : Nat) = 100 - 100 * 250 / 10000 ∧ (3 : Nat) = 3 :=
  platformFee_floor_formula qpS0 coreVerified 9 42 goodProof [11, 22]
    qpS1 3 98 (by rfl)

/-! ## Claim C9 -/

/-- C9 counterexample: agent 1 (fully verified) first publishes supported
type 100, then replaces its capability list with the empty list; the clear
loop only resets types 0..99, so type 100 stays supported although it is not
in the supplied list — replacement is not wholesale over all query-type
indices. -/
theorem setAgentCapabilities_stale_type_counterexample :
    setAgentCapabilities capsS0 coreVerified 1 [100] 10 1000 =
      .ok capsAfterFirst ∧
    setAgentCapabilities capsAfterFirst coreVerified 1 [] 10 1000 =
      .ok capsAfterSecond ∧
    (capsAfterSecond.agentCapabilities 1).supportedQueryTypes 100 = true ∧
    100 ∉ ([] : List Nat) := by
  refine ⟨by rfl, by rfl, by rfl, by decide⟩

/-- C9 amended: setAgentCapabilities still requires full verification and
replaces the supported set wholesale for query types below 100 (the range
the clear loop covers); a type of index 100 or above remains supported when
it was supported before, even if absent from the new list. -/
theorem setAgentCapabilities_gate_and_replacement
    (s : QueryProcessorState) (vs : VerificationCoreState) (agentId : Bytes32)
    (types : List Nat) (bp cm : Nat) :
    (isAgentFullyVerified vs agentId = false →
       setAgentCapabilities s vs agentId types bp cm =
         .error "Agent not verified") ∧
    (∀ s2, setAgentCapabilities s vs agentId types bp cm = .ok s2 →
       isAgentFullyVerified vs agentId = true ∧
       (∀ t, t < 100 →
         ((s2.agentCapabilities agentId).supportedQueryTypes t = true ↔
           t ∈ types)) ∧
       (∀ t, 100 ≤ t →
         ((s2.agentCapabilities agentId).supportedQueryTypes t = true ↔
           (t ∈ types ∨
            (s.agentCapabilities agentId).supportedQueryTypes t = true)))) := by
  constructor
  · intro hfalse
    simp [setAgentCapabilities, hfalse]
  · intro s2 hok
    simp only [setAgentCapabilities] at hok
    split_ifs at hok with hv
    injection hok with hs2
    refine ⟨by simpa using hv, ?_, ?_⟩
    · intro t ht
      rw [← hs2]
      by_cases hmem : t ∈ types
      · simp [hmem]
      · simp [hmem, ht]
    · intro t ht
      rw [← hs2]
      by_cases hmem : t ∈ types
      · simp [hmem]
      · simp [hmem, Nat.not_lt.mpr ht]

/-- C9 amended witness: with the verified agent 1 and list [100], type 5 is
unsupported after the call (5 ∉ [100]) and type 100 is supported. -/
theorem setAgentCapabilities_gate_and_replacement_witness :
    isAgentFullyVerified coreVerified 1 = true ∧
    ((capsAfterFirst.agentCapabilities 1).supportedQueryTypes 5 = true ↔
      (5 : Nat) ∈ [(100 : Nat)]) ∧
    ((capsAfterFirst.agentCapabilities 1).supportedQueryTypes 100 = true ↔
      ((100 : Nat) ∈ [(100 : Nat)] ∨
       (capsS0.agentCapabilities 1).supportedQueryTypes 100 = true)) := by
  have h := (setAgentCapabilities_gate_and_replacement capsS0 coreVerified 1
    [100] 10 1000).2 capsAfterFirst (by rfl)
  exact ⟨h.1, h.2.1 5 (by decide), h.2.2 100 (by decide)⟩

/-! ## Claim C10 -/

/-- C10: submitQueryProcessingProof never reads msg.sender: the outcome is
identical for every caller, and on success the released funds go to the
queried agent's creator — never to the caller as such (a caller distinct
from the creator never receives them). -/
theorem submitQueryProcessingProof_ignores_caller
    (s : QueryProcessorState) (vs : VerificationCoreState) (c1 c2 : Address)
    (queryId : Bytes32) (pf : Proof) (pub : List Nat) :
    submitQueryProcessingProof s vs c1 queryId pf pub =
      submitQueryProcessingProof s vs c2 queryId pf pub ∧
    (∀ s2 recipient amount,
       submitQueryProcessingProof s vs c1 queryId pf pub =
         .ok (s2, recipient, amount) →
       recipient = (vs.agents (s.queries queryId).agentId).creator ∧
       (c1 ≠ (vs.agents (s.queries queryId).agentId).creator →
         recipient ≠ c1)) := by
  refine ⟨rfl, ?_⟩
  intro s2 recipient amount h
  have hs := submitQueryProcessingProof_ok_spec s vs c1 queryId pf pub
    s2 recipient amount h
  refine ⟨hs.1, fun hne => ?_⟩
  rw [hs.1]
  exact fun hcontra => hne hcontra.symm

/-- C10 witness: callers 9 and 7 settle query 42 identically and the funds
go to creator 3, not to caller 9. -/
theorem submitQueryProcessingProof_ignores_caller_witness :
    submitQueryProcessingProof qpS0 coreVerified 9 42 goodProof [11, 22] =
      submitQueryProcessingProof qpS0 coreVerified 7 42 goodProof [11, 22] ∧
    ((3 : Nat) = (coreVerified.agents (qpS0.queries 42).agentId).creator ∧
     ((9 : Nat) ≠ (coreVerified.agents (qpS0.queries 42).agentId).creator →
       (3 : Nat) ≠ 9)) := by
  have h := submitQueryProcessingProof_ignores_caller qpS0 coreVerified 9 7
    42 goodProof [11, 22]
  exact ⟨h.1, h.2 qpS1 3 98 (by rfl)⟩

end ZKAgentMesh
